import Mathlib

/-!
Shallow embedding of the cortensor watcher supervisor
(src/app/watcher/monitor.py together with src/app/bot/notifier.py).

Timestamps are modelled as integers counting seconds of UTC time; a Python
`timedelta(minutes=m)` compared against an elapsed time becomes `m * 60`
seconds.  `None`-able timestamps become `Option Int`.  Side effects of the
restart pipeline (file writes, notifications, the docker restart RPC) are
recorded as boolean fields of an outcome record, and the possibility that an
external step raises is injected through an environment record of booleans.
-/

/-- Embeds one entry of `NodeMonitor.container_states`
(monitor.py lines 30-38): the per-container supervisor state. -/
structure ContainerState where
  state_deviation_start_time : Option Int
  id_lag_start_time : Option Int
  warmed_up : Bool
  reputation_cooldown_until : Option Int
deriving DecidableEq

/-- Embeds the state mutation block of `_restart_container`
(monitor.py lines 79-87): both grace timers are cleared and, when the reason
is the literal "Reputation Failure", the cooldown is set to
`now + cooldown_minutes` (converted to seconds). -/
def restart_state_update (reason : String) (now cooldown_minutes : Int)
    (s : ContainerState) : ContainerState :=
  { s with
    state_deviation_start_time := none,
    id_lag_start_time := none,
    reputation_cooldown_until :=
      if reason = "Reputation Failure" then some (now + cooldown_minutes * 60)
      else s.reputation_cooldown_until }

/-- Environment of a `_restart_container` invocation: which of the external
steps raise.  `log_dump_raises` covers `container.logs` / `log_path.write_text`
(monitor.py lines 64-65), `event_log_raises` covers the append to
`WATCHER_LOG_FILE` (lines 72-73), `send_http_fails` covers a
`requests.RequestException` inside the notifier HTTP send (which
`TelegramNotifier._send_request`, notifier.py lines 36-41, catches internally,
so it never propagates), and `docker_restart_raises` covers
`container.restart(timeout=30)` (monitor.py line 89). -/
structure RestartEnv where
  log_dump_raises : Bool
  event_log_raises : Bool
  send_http_fails : Bool
  docker_restart_raises : Bool
deriving DecidableEq

/-- Observable outcome of one `_restart_container` invocation. -/
structure RestartOutcome where
  dump_written : Bool
  event_log_written : Bool
  alert_delivered : Bool
  restart_attempted : Bool
  failure_alert_sent : Bool
  raised : Bool
  final_state : Option ContainerState
deriving DecidableEq

/-- Embeds `_restart_container` (monitor.py lines 56-93).  The per-restart log
dump sits in a try/except (lines 63-67), so its failure only skips the dump.
The event-log append (lines 72-73) is NOT guarded: if it raises, the exception
propagates to the caller and none of the later steps run.  The notifier send
catches its own transport errors (notifier.py lines 36-41) and so never
raises.  The state mutation block (lines 79-87) runs next, and finally the
docker restart call is attempted inside a try/except whose handler sends a
restart-failure alert (lines 88-93) without rolling anything back.
`cs` is `container_states.get(cid)`: `some` exactly when the container is
configured. -/
def restart_container (env : RestartEnv) (reason : String) (now cooldown_minutes : Int)
    (cs : Option ContainerState) : RestartOutcome :=
  let dump_written := !env.log_dump_raises
  if env.event_log_raises then
    { dump_written := dump_written, event_log_written := false,
      alert_delivered := false, restart_attempted := false,
      failure_alert_sent := false, raised := true, final_state := cs }
  else
    { dump_written := dump_written, event_log_written := true,
      alert_delivered := !env.send_http_fails, restart_attempted := true,
      failure_alert_sent := env.docker_restart_raises, raised := false,
      final_state := cs.map (restart_state_update reason now cooldown_minutes) }

/-- Embeds the stagnation tracker singleton of `NodeMonitor`
(monitor.py lines 39-41). -/
structure StagnationState where
  last_seen_majority_pair : Option (Int × Int)
  majority_stagnation_start_time : Option Int
  alert_sent_for_stagnant_pair : Option (Int × Int)
deriving DecidableEq

/-- Embeds `_check_for_majority_stagnation` (monitor.py lines 292-310).
Returns the updated tracker and whether a stagnation alert was sent.  Note
line 293: when `stagnation_alert_enabled` is false the method returns at once,
performing no tracker update at all. -/
def check_for_majority_stagnation (stagnation_alert_enabled : Bool)
    (stagnation_threshold_minutes : Int) (st : StagnationState) (now : Int)
    (majority_pair : Int × Int) : StagnationState × Bool :=
  if !stagnation_alert_enabled then (st, false)
  else if st.last_seen_majority_pair ≠ some majority_pair then
    ({ last_seen_majority_pair := some majority_pair,
       majority_stagnation_start_time := none,
       alert_sent_for_stagnant_pair := none }, false)
  else
    match st.majority_stagnation_start_time with
    | none => ({ st with majority_stagnation_start_time := some now }, false)
    | some t0 =>
      if stagnation_threshold_minutes * 60 ≤ now - t0 ∧
          st.alert_sent_for_stagnant_pair ≠ some majority_pair then
        ({ st with alert_sent_for_stagnant_pair := some majority_pair }, true)
      else (st, false)

/-- Embeds one per-container ephemeral tick sample as assembled by
`_get_all_container_statuses` (monitor.py lines 168-194): whether docker
reports the container running, whether a container handle is available
(the dict key "container" is not `None`), and the parsed
`(session_id, state)` pair when one was found in the log tail. -/
structure TickStatus where
  is_running : Bool
  has_container : Bool
  pair : Option (Int × Int)
deriving DecidableEq

/-- Embeds the warmup-gated symptom scan of `_get_all_container_statuses`
(monitor.py lines 176-183).  `contains_traceback` and `contains_ping_fail`
abstract the substring tests `PATTERN_TRACEBACK in ln` and
`PATTERN_PING_FAIL in ln` (the two pattern constants live in app/constants).
A traceback anywhere in the tail restarts with reason "Python Traceback";
otherwise two or more ping failures among the last 52 lines restart with
reason "Ping Failure"; outside warmup no symptom restart is issued. -/
def symptom_restart_reason (contains_traceback contains_ping_fail : String → Bool)
    (warmed_up : Bool) (log_lines : List String) : Option String :=
  if warmed_up then
    if log_lines.any contains_traceback then some "Python Traceback"
    else if 2 ≤ (log_lines.drop (log_lines.length - 52)).countP contains_ping_fail then
      some "Ping Failure"
    else none
  else none

/-- Embeds one stage object of the reputation API response
(monitor.py line 125): `data.get(stage, \x7b\x7d)` with its
`all_timestamps` and `success_timestamps` lists. -/
structure ReputationStage where
  all_timestamps : List Int
  success_timestamps : List Int
deriving DecidableEq

/-- Embeds the reputation API response body used by `_check_reputation`
(monitor.py lines 122-125); a stage key missing from the JSON body defaults
to the empty stage. -/
structure ReputationData where
  precommit : ReputationStage
  commit : ReputationStage
deriving DecidableEq

/-- Embeds monitor.py lines 127-128:
`recent = set(all_ts[-window:])`, `failed_count = len(recent - set(success_ts))`,
i.e. the number of DISTINCT values among the last `window` entries of
`all_timestamps` that do not occur in `success_timestamps`.  The slice
`all_ts[-window:]` is modelled for the positive window sizes the
configuration admits. -/
def failed_count (window : Nat) (stage : ReputationStage) : Nat :=
  let recent := stage.all_timestamps.drop (stage.all_timestamps.length - window)
  ((recent.filter fun t => decide (t ∉ stage.success_timestamps)).dedup).length

/-- Embeds the per-stage trigger test of `_check_reputation`
(monitor.py lines 126-131): an empty `all_timestamps` list skips the stage
(`if not all_ts: continue`), otherwise the stage fires when
`failed_count ≥ threshold`. -/
def stage_triggers (window threshold : Nat) (stage : ReputationStage) : Bool :=
  !stage.all_timestamps.isEmpty && threshold ≤ failed_count window stage

/-- Embeds the cooldown test of `_check_reputation` (monitor.py line 110):
`cooldown_until and now < cooldown_until`. -/
def in_cooldown (now : Int) (s : ContainerState) : Bool :=
  match s.reputation_cooldown_until with
  | some u => decide (now < u)
  | none => false

/-- Embeds the per-node body of `_check_reputation`
(monitor.py lines 103-134) for a node whose container handle resolves and
whose HTTP probe returned a JSON body.  A node in cooldown is skipped
(line 110), a node not yet warmed up is skipped (line 116); otherwise the
stages "precommit" then "commit" are evaluated in order and the first stage
that triggers causes a restart with reason "Reputation Failure" and a `break`
out of the stage loop (lines 123-134).  The result names the stage that
restarted the node, or `none` when no restart was issued. -/
def check_reputation_node (window threshold : Nat) (now : Int)
    (s : ContainerState) (data : ReputationData) : Option String :=
  if in_cooldown now s then none
  else if !s.warmed_up then none
  else if stage_triggers window threshold data.precommit then some "precommit"
  else if stage_triggers window threshold data.commit then some "commit"
  else none

/-- Embeds the loop body of `_evaluate_all_nodes` for a single container
(monitor.py lines 199-239).  Returns the container state after the iteration
together with the reason of the restart issued for this container, if any.
A restart applies `restart_state_update`, the state mutation performed by
`_restart_container` (lines 79-87), to the state current at the call site. -/
def evaluate_node (grace_period_seconds cooldown_minutes now : Int)
    (majority_pair : Int × Int) (status : TickStatus) (s : ContainerState) :
    ContainerState × Option String :=
  if !status.is_running || !status.has_container then
    if majority_pair.2 = 6 ∧ status.has_container = true then
      (restart_state_update "Inactive Node" now cooldown_minutes s, some "Inactive Node")
    else (s, none)
  else
    match status.pair with
    | none => (s, none)
    | some (current_id, current_state) =>
      if (current_id, current_state) = majority_pair then
        ({ s with state_deviation_start_time := none, id_lag_start_time := none }, none)
      else if current_state ≠ majority_pair.2 then
        match s.state_deviation_start_time with
        | none => ({ s with state_deviation_start_time := some now }, none)
        | some t0 =>
          if grace_period_seconds ≤ now - t0 then
            if s.warmed_up then
              (restart_state_update "State Deviation" now cooldown_minutes s,
               some "State Deviation")
            else (s, none)
          else (s, none)
      else if current_id < majority_pair.1 then
        match s.id_lag_start_time with
        | none => ({ s with id_lag_start_time := some now }, none)
        | some t0 =>
          if (120 : Int) ≤ now - t0 then
            if s.warmed_up then
              (restart_state_update "Session ID Lag" now cooldown_minutes s,
               some "Session ID Lag")
            else (s, none)
          else (s, none)
      else (s, none)

/-- Models the whitespace class of Python `str.split()` with no argument
(equivalently `str.isspace`): the ASCII whitespace x09-x0d and x20, the
C1 separators x1c-x1f and x85, and the Unicode space separators NBSP (xa0),
Ogham space (x1680), the en/em family x2000-x200a, line separator x2028,
paragraph separator x2029, narrow no-break space x202f, mathematical space
x205f and ideographic space x3000. -/
def py_is_space (c : Char) : Bool :=
  decide (9 ≤ c.toNat ∧ c.toNat ≤ 13) || c.toNat == 32 ||
  decide (28 ≤ c.toNat ∧ c.toNat ≤ 31) || c.toNat == 133 || c.toNat == 160 ||
  c.toNat == 5760 || decide (8192 ≤ c.toNat ∧ c.toNat ≤ 8202) ||
  c.toNat == 8232 || c.toNat == 8233 || c.toNat == 8239 ||
  c.toNat == 8287 || c.toNat == 12288

/-- Models Python `str.split()` with no argument (as used on monitor.py
line 248): split on runs of Python whitespace, dropping empty tokens, so
leading and trailing whitespace (the `.strip()`) is absorbed as well. -/
def split_ws_aux : List Char → List Char → List String
  | [], acc => if acc.isEmpty then [] else [String.mk acc.reverse]
  | c :: rest, acc =>
    if py_is_space c then
      if acc.isEmpty then split_ws_aux rest []
      else String.mk acc.reverse :: split_ws_aux rest []
    else split_ws_aux rest (c :: acc)

/-- Tokenisation of an inbound chat message text (monitor.py line 248):
`message.get("text", "").strip().split()`. -/
def tokenize (text : String) : List String :=
  split_ws_aux text.data []

/-- Lowercasing of the command token (monitor.py line 249):
`parts[0].lower()` restricted to ASCII as the commands are ASCII. -/
def lower_str (s : String) : String :=
  String.mk (s.data.map Char.toLower)

/-- Models Python `str.isdigit()` on a token (monitor.py line 261):
nonempty and all digits. -/
def isdigit_str (s : String) : Bool :=
  !s.data.isEmpty && s.data.all Char.isDigit

/-- Models Python `int(token)` on a whitespace-free token (monitor.py
line 279): an optional sign followed by at least one digit; `none` models the
`ValueError` branch. -/
def py_int_of (s : String) : Option Int :=
  let digits_to_nat : List Char → Option Nat := fun cs =>
    if cs.isEmpty || !cs.all Char.isDigit then none
    else some (cs.foldl (fun acc c => acc * 10 + (c.toNat - 48)) 0)
  match s.data with
  | '-' :: rest => (digits_to_nat rest).map (fun n => -(n : Int))
  | '+' :: rest => (digits_to_nat rest).map (fun n => (n : Int))
  | cs => (digits_to_nat cs).map (fun n => (n : Int))

/-- Mutable configuration visible to the command handler: the two runtime
mutable fields plus the container count read by `/status`
(monitor.py lines 272-286). -/
structure BotConfig where
  stagnation_alert_enabled : Bool
  stagnation_threshold_minutes : Int
  num_containers : Nat
deriving DecidableEq

/-- Environment of one command-handler invocation: whether
`client.containers.get(cid)` finds the container (monitor.py line 255,
`docker.errors.NotFound` otherwise) and whether the docker action or log
fetch inside the try block raises a generic exception, carrying its
message string. -/
structure CmdEnv where
  container_exists : Bool
  action_raises : Option String
deriving DecidableEq

/-- Outcome of one command-handler invocation as seen through the notifier:
either a command response text, the help text, the unknown-command text, or
an exception propagating out of the handler to the polling thread. -/
inductive CmdOutcome where
  | response (msg : String)
  | help_response
  | unknown_response
  | raised (exn : String)
deriving DecidableEq

/-- Modelled from the spec: the templated error response of the command
handler, "a templated error response with the message string"
(`MSG_CMD_ERROR.format(error=str(e))`, monitor.py line 266; the template
constant lives in app/constants which is not part of the sources). -/
def MSG_CMD_ERROR (error : String) : String :=
  "An error occurred while executing the command: " ++ error

/-- Embeds `_handle_telegram_command` (monitor.py lines 247-290).  Response
texts that carry interpolated numbers are abbreviated to fixed strings, which
does not change which branch answers nor whether an exception escapes.
On an empty token list, `parts[0]` raises an uncaught `IndexError`
(line 249).  Container-lifecycle commands run inside a try/except that maps
`NotFound` to an explanatory response and any other exception to
`MSG_CMD_ERROR` (lines 254-266); for `/logs` the line-count validation
precedes the log fetch (lines 260-262).  The `/stagnation`,
`/stagnation_timer`, `/status`, `/help` and unknown branches follow
lines 268-290. -/
def handle_telegram_command (env : CmdEnv) (cfg : BotConfig) (text : String) :
    CmdOutcome × BotConfig :=
  match tokenize text with
  | [] => (CmdOutcome.raised "IndexError", cfg)
  | first_token :: rest =>
    let command := lower_str first_token
    if command = "/start" ∨ command = "/stop" ∨ command = "/restart" ∨ command = "/logs" then
      match rest with
      | [] => (CmdOutcome.response "Error: Missing container name.", cfg)
      | cid :: rest2 =>
        if !env.container_exists then
          (CmdOutcome.response ("Error: Container " ++ cid ++ " not found."), cfg)
        else if command = "/logs" then
          let num_lines_str := match rest2 with | n :: _ => n | [] => "20"
          if !isdigit_str num_lines_str then
            (CmdOutcome.response "Error: Line count must be a number.", cfg)
          else
            match env.action_raises with
            | some e => (CmdOutcome.response (MSG_CMD_ERROR e), cfg)
            | none => (CmdOutcome.response ("Last lines of logs for " ++ cid), cfg)
        else
          match env.action_raises with
          | some e => (CmdOutcome.response (MSG_CMD_ERROR e), cfg)
          | none =>
            if command = "/start" then
              (CmdOutcome.response ("Container " ++ cid ++ " started."), cfg)
            else if command = "/stop" then
              (CmdOutcome.response ("Container " ++ cid ++ " stopped."), cfg)
            else
              (CmdOutcome.response ("Container " ++ cid ++ " restarted."), cfg)
    else if command = "/stagnation" then
      match rest with
      | [] => (CmdOutcome.response "Missing sub-command. Use on or off.", cfg)
      | sub :: _ =>
        let sub_cmd := lower_str sub
        if sub_cmd = "on" then
          (CmdOutcome.response "Stagnation alerts have been ENABLED.",
           { cfg with stagnation_alert_enabled := true })
        else if sub_cmd = "off" then
          (CmdOutcome.response "Stagnation alerts have been DISABLED.",
           { cfg with stagnation_alert_enabled := false })
        else
          (CmdOutcome.response ("Unknown sub-command " ++ sub_cmd ++ ". Use on or off."), cfg)
    else if command = "/stagnation_timer" then
      match rest with
      | [] => (CmdOutcome.response "Missing argument for the stagnation timer.", cfg)
      | m_str :: _ =>
        match py_int_of m_str with
        | none =>
          (CmdOutcome.response "Invalid number. Please provide an integer for minutes.", cfg)
        | some minutes =>
          if 0 < minutes then
            (CmdOutcome.response "Stagnation timer set.",
             { cfg with stagnation_threshold_minutes := minutes })
          else
            (CmdOutcome.response "Please provide a positive number of minutes.", cfg)
    else if command = "/status" then
      (CmdOutcome.response "Watcher Status summary.", cfg)
    else if command = "/help" then
      (CmdOutcome.help_response, cfg)
    else
      (CmdOutcome.unknown_response, cfg)

/-- Embeds the `running_nodes` filter of `run` (monitor.py line 150) followed
by the pair extraction of line 154: one `(session_id, state)` per container
that is running and reported a parsed pair, in container iteration order. -/
def running_pairs (nodes : List (TickStatus × ContainerState)) : List (Int × Int) :=
  nodes.filterMap (fun ns => if ns.1.is_running then ns.1.pair else none)

/-- The distinct pairs of a list in order of first occurrence, the key order
a Python `Counter` built from the list iterates in. -/
def first_occurrences (l : List (Int × Int)) : List (Int × Int) :=
  l.foldl (fun acc p => if p ∈ acc then acc else acc ++ [p]) []

/-- Embeds `Counter(id_state_pairs).most_common(1)[0][0]` (monitor.py
line 155): the most frequent pair; Python sorting being stable, ties go to
the first-encountered pair. -/
def most_common (l : List (Int × Int)) : Option (Int × Int) :=
  (first_occurrences l).foldl
    (fun best p =>
      match best with
      | none => some p
      | some b => if l.count b < l.count p then some p else best)
    none

/-- Outcome of the majority phase of one tick of `run`: the updated
stagnation tracker, the per-container results of `_evaluate_all_nodes`, and
whether the not-enough-nodes warning was emitted instead. -/
structure TickOutcome where
  stagnation : StagnationState
  nodes : List (ContainerState × Option String)
  warned_no_majority : Bool
deriving DecidableEq

/-- Embeds monitor.py lines 149-159, the part of one `run` tick from the
status gather onwards: when fewer than 2 containers are running with a parsed
pair, a warning is logged and neither the stagnation tracker nor any
container is touched; otherwise the majority pair is the most common pair,
`_check_for_majority_stagnation` runs, then `_evaluate_all_nodes`.
(The `most_common = none` arm is unreachable: at least 2 pairs exist there.) -/
def run_majority_phase (stagnation_alert_enabled : Bool)
    (stagnation_threshold_minutes grace_period_seconds cooldown_minutes : Int)
    (stag : StagnationState) (now : Int)
    (nodes : List (TickStatus × ContainerState)) : TickOutcome :=
  let pairs := running_pairs nodes
  if pairs.length < 2 then
    { stagnation := stag, nodes := nodes.map (fun ns => (ns.2, none)),
      warned_no_majority := true }
  else
    match most_common pairs with
    | none =>
      { stagnation := stag, nodes := nodes.map (fun ns => (ns.2, none)),
        warned_no_majority := true }
    | some majority_pair =>
      { stagnation := (check_for_majority_stagnation stagnation_alert_enabled
          stagnation_threshold_minutes stag now majority_pair).1,
        nodes := nodes.map (fun ns =>
          evaluate_node grace_period_seconds cooldown_minutes now majority_pair ns.1 ns.2),
        warned_no_majority := false }

/-- Helper: the implementation count of monitor.py line 128 equals the
cardinality of the set difference `set(recent) - set(success_timestamps)`
written with finsets, the formulation of spec section 4.4. -/
theorem failed_count_eq_sdiff_card (window : Nat) (stage : ReputationStage) :
    failed_count window stage =
      ((stage.all_timestamps.drop (stage.all_timestamps.length - window)).toFinset \
        stage.success_timestamps.toFinset).card := by
  unfold failed_count
  rw [← List.card_toFinset, List.toFinset_filter, Finset.sdiff_eq_filter]
  refine congrArg Finset.card (Finset.filter_congr ?_)
  intro x _
  simp

/-- Helper: a container that is not warmed up can pick up at most an
"Inactive Node" restart from `_evaluate_all_nodes`; the two deviation
restarts are gated on `warmed_up` (monitor.py lines 222 and 235). -/
theorem evaluate_node_not_warmed_restart (g cm now : Int) (mp : Int × Int)
    (status : TickStatus) (s : ContainerState) (h : s.warmed_up = false) :
    (evaluate_node g cm now mp status s).2 = none ∨
    (evaluate_node g cm now mp status s).2 = some "Inactive Node" := by
  unfold evaluate_node
  repeat' split
  all_goals first
    | (left ; rfl)
    | (right ; rfl)
    | simp_all

/-- C1: evaluating `_restart_container` at the failing input: an invocation
where the append to WATCHER_LOG_FILE raises.  The exception propagates before
`container.restart` is reached, so no restart is attempted, although a failure
of the per-restart log dump alone (third conjunct) is isolated as the claim
says.  This contradicts the claim that a failure in any of the three
bookkeeping steps still lets the restart attempt happen. -/
theorem c1_event_log_failure_blocks_restart :
    (restart_container ⟨false, true, false, false⟩ "State Deviation" 100 30
        (some ⟨some 5, none, true, none⟩)).restart_attempted = false ∧
    (restart_container ⟨false, true, false, false⟩ "State Deviation" 100 30
        (some ⟨some 5, none, true, none⟩)).raised = true ∧
    (restart_container ⟨true, false, false, false⟩ "State Deviation" 100 30
        (some ⟨some 5, none, true, none⟩)).restart_attempted = true :=
  ⟨rfl, rfl, rfl⟩

/-- C2 counterexample: with stagnation alerts disabled and
`last_seen_pair = none ≠ some (7, 3)`, the tracker is NOT updated to the
majority pair: `_check_for_majority_stagnation` returns at its first line
(monitor.py line 293), so the flag gates the tracker updates, not only the
alert emission as the claim states. -/
theorem c2_counterexample :
    (check_for_majority_stagnation false 30 ⟨none, none, none⟩ 100 (7, 3)).1 =
      ⟨none, none, none⟩ ∧
    (check_for_majority_stagnation false 30 ⟨none, none, none⟩ 100 (7, 3)).1.last_seen_majority_pair ≠
      some (7, 3) := by
  refine ⟨rfl, by decide⟩

/-- C2 (amended): the stagnation tracker updates run only when
`stagnation_alert_enabled` is true; with the flag disabled the tracker is left
untouched, and with the flag enabled the updates are exactly as the claim
describes: a differing majority pair resets the tracker to it and clears
`stagnation_start` and `alert_sent_for`, and an unchanged pair arms
`stagnation_start` when it is unset. -/
theorem c2_stagnation_tracker_updates (tm : Int) (st : StagnationState)
    (now : Int) (mp : Int × Int) :
    (check_for_majority_stagnation false tm st now mp).1 = st ∧
    (st.last_seen_majority_pair ≠ some mp →
      (check_for_majority_stagnation true tm st now mp).1 =
        { last_seen_majority_pair := some mp,
          majority_stagnation_start_time := none,
          alert_sent_for_stagnant_pair := none }) ∧
    (st.last_seen_majority_pair = some mp →
      st.majority_stagnation_start_time = none →
      (check_for_majority_stagnation true tm st now mp).1 =
        { st with majority_stagnation_start_time := some now }) := by
  refine ⟨rfl, ?_, ?_⟩
  · intro h
    simp [check_for_majority_stagnation, h]
  · intro h1 h2
    simp [check_for_majority_stagnation, h1, h2]

/-- C2 witness: the amended behaviour evaluated at concrete trackers, one
update of each kind. -/
theorem c2_stagnation_tracker_updates_witness :
    (check_for_majority_stagnation true 30 ⟨none, none, none⟩ 100 (7, 3)).1 =
      { last_seen_majority_pair := some (7, 3),
        majority_stagnation_start_time := none,
        alert_sent_for_stagnant_pair := none } ∧
    (check_for_majority_stagnation true 30 ⟨some (7, 3), none, none⟩ 100 (7, 3)).1 =
      { last_seen_majority_pair := some (7, 3),
        majority_stagnation_start_time := some 100,
        alert_sent_for_stagnant_pair := none } :=
  ⟨(c2_stagnation_tracker_updates 30 ⟨none, none, none⟩ 100 (7, 3)).2.1 (by decide),
   (c2_stagnation_tracker_updates 30 ⟨some (7, 3), none, none⟩ 100 (7, 3)).2.2 rfl rfl⟩

/-- C3 counterexample: a leading-id container (pair (11, 3) against majority
(10, 3)) with `state_deviation_start` set before the tick keeps the timer set
after the tick: `_evaluate_all_nodes` falls through every branch for it
without clearing anything, so it is not treated identically to an in-sync
container, whose branch clears both timers. -/
theorem c3_counterexample :
    (evaluate_node 30 30 100 (10, 3) ⟨true, true, some (11, 3)⟩
        ⟨some 5, none, true, none⟩).1.state_deviation_start_time = some 5 ∧
    (evaluate_node 30 30 100 (10, 3) ⟨true, true, some (11, 3)⟩
        ⟨some 5, none, true, none⟩).2 = none :=
  ⟨rfl, rfl⟩

/-- C3 (amended): a running container whose state equals the majority state
and whose session id is strictly greater than the majority id starts no
timer, is never restarted, and keeps its per-container state exactly
unchanged -- previously set timers are left as they were, not cleared. -/
theorem c3_leading_id_leaves_state_unchanged (g cm now mid mstate cid : Int)
    (status : TickStatus) (s : ContainerState)
    (hrun : status.is_running = true) (hc : status.has_container = true)
    (hp : status.pair = some (cid, mstate)) (hgt : mid < cid) :
    evaluate_node g cm now (mid, mstate) status s = (s, none) := by
  have hne : ¬((cid, mstate) = (mid, mstate)) := fun hcon =>
    hgt.ne' (congrArg Prod.fst hcon)
  have hlt : ¬(cid < mid) := by omega
  simp [evaluate_node, hrun, hc, hp, hne, hlt]

/-- C3 witness: a leading-id container with its id-lag timer set keeps it. -/
theorem c3_leading_id_leaves_state_unchanged_witness :
    evaluate_node 30 30 100 (10, 3) ⟨true, true, some (11, 3)⟩
      ⟨none, some 4, true, none⟩ = (⟨none, some 4, true, none⟩, none) :=
  c3_leading_id_leaves_state_unchanged 30 30 100 10 3 11 _ _ rfl rfl rfl (by decide)

/-- C4 counterexample: an inbound message whose text is whitespace-only --
spaces, or Python-only whitespace such as a vertical tab (x0b) or an NBSP
(xa0) -- tokenizes to the empty list, so `parts[0]` on monitor.py line 249
raises an uncaught `IndexError` out of `_handle_telegram_command`; no
response is sent.  The exception is absorbed only by the generic handler of
the polling thread (notifier.py lines 62-64). -/
theorem c4_counterexample :
    handle_telegram_command ⟨true, none⟩ ⟨true, 30, 3⟩ "  " =
      (CmdOutcome.raised "IndexError", ⟨true, 30, 3⟩) ∧
    handle_telegram_command ⟨true, none⟩ ⟨true, 30, 3⟩ "\x0b" =
      (CmdOutcome.raised "IndexError", ⟨true, 30, 3⟩) ∧
    handle_telegram_command ⟨true, none⟩ ⟨true, 30, 3⟩ "\u00a0" =
      (CmdOutcome.raised "IndexError", ⟨true, 30, 3⟩) :=
  ⟨rfl, rfl, rfl⟩

/-- C4 (amended): for every inbound text containing at least one
non-whitespace token, `_handle_telegram_command` never raises to its caller:
argument errors answer with an explanatory response and any exception inside
a container-lifecycle command is caught and answered with the templated
error response. -/
theorem c4_nonempty_text_never_raises (env : CmdEnv) (cfg : BotConfig)
    (text : String) (h : tokenize text ≠ []) (e : String) :
    (handle_telegram_command env cfg text).1 ≠ CmdOutcome.raised e := by
  rcases htok : tokenize text with _ | ⟨t, rest⟩
  · exact absurd htok h
  · simp only [handle_telegram_command, htok]
    repeat' split
    all_goals simp

/-- C4 witness: the amended no-raise property evaluated on a concrete
command. -/
theorem c4_nonempty_text_never_raises_witness :
    tokenize "/stagnation off" ≠ [] ∧
    (handle_telegram_command ⟨true, none⟩ ⟨true, 30, 3⟩ "/stagnation off").1 ≠
      CmdOutcome.raised "IndexError" :=
  ⟨by decide,
   c4_nonempty_text_never_raises ⟨true, none⟩ ⟨true, 30, 3⟩ "/stagnation off"
     (by decide) "IndexError"⟩

/-- C5: a container whose `warmed_up` flag is false receives no restart for
any of the five warmup-gated reasons: the symptom scan of
`_get_all_container_statuses` is skipped entirely (monitor.py line 176), the
two deviation restarts of `_evaluate_all_nodes` are guarded by `warmed_up`
(lines 222 and 235), and `_check_reputation` skips the node before probing
(line 116). -/
theorem c5_warmup_gates_restarts (ct cp : String → Bool) (lines : List String)
    (g cm now : Int) (mp : Int × Int) (status : TickStatus)
    (s : ContainerState) (window threshold : Nat) (data : ReputationData)
    (h : s.warmed_up = false) :
    symptom_restart_reason ct cp s.warmed_up lines = none ∧
    (evaluate_node g cm now mp status s).2 ≠ some "State Deviation" ∧
    (evaluate_node g cm now mp status s).2 ≠ some "Session ID Lag" ∧
    check_reputation_node window threshold now s data = none := by
  refine ⟨by simp [symptom_restart_reason, h], ?_, ?_, ?_⟩
  · rcases evaluate_node_not_warmed_restart g cm now mp status s h with h2 | h2 <;>
      rw [h2] <;> decide
  · rcases evaluate_node_not_warmed_restart g cm now mp status s h with h2 | h2 <;>
      rw [h2] <;> decide
  · unfold check_reputation_node
    split
    · rfl
    · simp [h]

/-- C5 witness: a not-yet-warmed container with a traceback in its tail, a
long-expired state-deviation grace period, and six failed reputation tasks
still is not restarted for any of the gated reasons. -/
theorem c5_warmup_gates_restarts_witness :
    symptom_restart_reason (fun ln => ln == "TB") (fun ln => ln == "PF")
      (ContainerState.mk (some 0) (some 0) false none).warmed_up
      ["TB", "PF", "PF"] = none ∧
    (evaluate_node 30 30 1000 (10, 3) ⟨true, true, some (9, 4)⟩
        ⟨some 0, some 0, false, none⟩).2 ≠ some "State Deviation" ∧
    (evaluate_node 30 30 1000 (10, 3) ⟨true, true, some (9, 4)⟩
        ⟨some 0, some 0, false, none⟩).2 ≠ some "Session ID Lag" ∧
    check_reputation_node 5 5 1000 ⟨some 0, some 0, false, none⟩
      ⟨⟨[1, 2, 3, 4, 5, 6], []⟩, ⟨[], []⟩⟩ = none :=
  c5_warmup_gates_restarts (fun ln => ln == "TB") (fun ln => ln == "PF")
    ["TB", "PF", "PF"] 30 30 1000 (10, 3) ⟨true, true, some (9, 4)⟩
    ⟨some 0, some 0, false, none⟩ 5 5 ⟨⟨[1, 2, 3, 4, 5, 6], []⟩, ⟨[], []⟩⟩ rfl

/-- C6: whenever `_restart_container` reaches the docker restart call, the
per-container state has both timers cleared, a "Reputation Failure" reason
has set the cooldown to now plus the configured minutes, and a failing
restart call sends the restart-failure alert while the state mutations stay
in place (the final state does not depend on the restart call failing). -/
theorem c6_restart_clears_timers_and_sets_cooldown (env : RestartEnv)
    (reason : String) (now cm : Int) (s : ContainerState)
    (h : (restart_container env reason now cm (some s)).restart_attempted = true) :
    (restart_container env reason now cm (some s)).final_state =
      some (restart_state_update reason now cm s) ∧
    (restart_state_update reason now cm s).state_deviation_start_time = none ∧
    (restart_state_update reason now cm s).id_lag_start_time = none ∧
    (reason = "Reputation Failure" →
      (restart_state_update reason now cm s).reputation_cooldown_until =
        some (now + cm * 60)) ∧
    (env.docker_restart_raises = true →
      (restart_container env reason now cm (some s)).failure_alert_sent = true) := by
  have hE : env.event_log_raises = false := by
    by_contra hcon
    rw [Bool.not_eq_false] at hcon
    unfold restart_container at h
    simp [hcon] at h
  refine ⟨?_, rfl, rfl, ?_, ?_⟩
  · simp [restart_container, hE]
  · intro hr
    simp [restart_state_update, hr]
  · intro hd
    simp [restart_container, hE, hd]

/-- C6 witness: a reputation-failure restart whose docker restart call fails
still leaves the timers cleared, the cooldown at 100 + 30 * 60 = 1900, and
sends the failure alert. -/
theorem c6_restart_clears_timers_and_sets_cooldown_witness :
    (restart_container ⟨false, false, false, true⟩ "Reputation Failure" 100 30
        (some ⟨some 1, some 2, true, none⟩)).final_state =
      some ⟨none, none, true, some 1900⟩ ∧
    (restart_container ⟨false, false, false, true⟩ "Reputation Failure" 100 30
        (some ⟨some 1, some 2, true, none⟩)).failure_alert_sent = true := by
  have h := c6_restart_clears_timers_and_sets_cooldown ⟨false, false, false, true⟩
    "Reputation Failure" 100 30 ⟨some 1, some 2, true, none⟩ rfl
  exact ⟨by rw [h.1]; rfl, h.2.2.2.2 rfl⟩

/-- Modelled from the claim wording of C7: the number of entries, counted
with multiplicity, among the last `window` entries of `all_timestamps` that
are not in `success_timestamps`. -/
def failed_entry_count (window : Nat) (stage : ReputationStage) : Nat :=
  ((stage.all_timestamps.drop (stage.all_timestamps.length - window)).filter
    fun t => decide (t ∉ stage.success_timestamps)).length

/-- C7 counterexample: with `all_timestamps = [5, 5]`, window 2 and empty
`success_timestamps`, the last-window entries contain 2 failures counted with
multiplicity, meeting threshold 2, yet the code counts the DISTINCT failed
values (`len(set(recent) - set(success))` = 1) and issues no restart for a
warmed-up, non-cooldown node. -/
theorem c7_counterexample :
    failed_entry_count 2 ⟨[5, 5], []⟩ = 2 ∧
    failed_count 2 ⟨[5, 5], []⟩ = 1 ∧
    check_reputation_node 2 2 0 ⟨none, none, true, none⟩
      ⟨⟨[5, 5], []⟩, ⟨[], []⟩⟩ = none := by
  decide

/-- C7 (amended): for each node the probe computes `failed` as the number of
DISTINCT values among the last `window` entries of `all_timestamps` that are
not in `success_timestamps` (the set difference of spec section 4.4), and for
a warmed-up node not in cooldown the stages are evaluated in order precommit
then commit: the first stage with a nonempty `all_timestamps` and
`failed ≥ threshold` restarts the node with reason "Reputation Failure" and
no further stage is evaluated for that node in the tick. -/
theorem c7_reputation_probe (window threshold : Nat) (now : Int)
    (s : ContainerState) (data : ReputationData)
    (hw : s.warmed_up = true) (hc : in_cooldown now s = false) :
    failed_count window data.precommit =
      ((data.precommit.all_timestamps.drop
          (data.precommit.all_timestamps.length - window)).toFinset \
        data.precommit.success_timestamps.toFinset).card ∧
    failed_count window data.commit =
      ((data.commit.all_timestamps.drop
          (data.commit.all_timestamps.length - window)).toFinset \
        data.commit.success_timestamps.toFinset).card ∧
    (stage_triggers window threshold data.precommit = true →
      check_reputation_node window threshold now s data = some "precommit") ∧
    (stage_triggers window threshold data.precommit = false →
      stage_triggers window threshold data.commit = true →
      check_reputation_node window threshold now s data = some "commit") := by
  refine ⟨failed_count_eq_sdiff_card window data.precommit,
    failed_count_eq_sdiff_card window data.commit, ?_, ?_⟩
  · intro h1
    simp [check_reputation_node, hc, hw, h1]
  · intro h1 h2
    simp [check_reputation_node, hc, hw, h1, h2]

/-- C7 witness: a node whose cooldown expired (40 < now = 50), with two
distinct failed precommit values among the last three timestamps, is
restarted from the precommit stage and the commit stage (which would also
trigger) is never consulted. -/
theorem c7_reputation_probe_witness :
    check_reputation_node 3 2 50 ⟨none, none, true, some 40⟩
      ⟨⟨[1, 2, 2, 7], []⟩, ⟨[8, 9], []⟩⟩ = some "precommit" :=
  (c7_reputation_probe 3 2 50 ⟨none, none, true, some 40⟩
      ⟨⟨[1, 2, 2, 7], []⟩, ⟨[8, 9], []⟩⟩ rfl rfl).2.2.1 (by decide)

/-- C8: a running container whose parsed pair equals the majority pair takes
the in-sync branch of `_evaluate_all_nodes` (monitor.py lines 210-214), which
unconditionally clears both timers. -/
theorem c8_in_sync_clears_timers (g cm now : Int) (mp : Int × Int)
    (status : TickStatus) (s : ContainerState)
    (hrun : status.is_running = true) (hc : status.has_container = true)
    (hp : status.pair = some mp) :
    (evaluate_node g cm now mp status s).1.state_deviation_start_time = none ∧
    (evaluate_node g cm now mp status s).1.id_lag_start_time = none := by
  obtain ⟨mid, mstate⟩ := mp
  simp [evaluate_node, hrun, hc, hp]

/-- C8 witness: an in-sync container with both timers previously set has
both unset after the evaluation. -/
theorem c8_in_sync_clears_timers_witness :
    (evaluate_node 30 30 100 (10, 3) ⟨true, true, some (10, 3)⟩
        ⟨some 1, some 2, true, none⟩).1.state_deviation_start_time = none ∧
    (evaluate_node 30 30 100 (10, 3) ⟨true, true, some (10, 3)⟩
        ⟨some 1, some 2, true, none⟩).1.id_lag_start_time = none :=
  c8_in_sync_clears_timers 30 30 100 (10, 3) ⟨true, true, some (10, 3)⟩
    ⟨some 1, some 2, true, none⟩ rfl rfl rfl

/-- C9: when fewer than 2 containers are running with a parsed pair, the
tick logs the not-enough-nodes warning and performs neither the stagnation
update nor any per-container evaluation (monitor.py lines 150-159): the
stagnation tracker and every container state come out unchanged with no
restart issued. -/
theorem c9_no_majority_skips_updates (e : Bool) (tm g cm : Int)
    (stag : StagnationState) (now : Int)
    (nodes : List (TickStatus × ContainerState))
    (h : (running_pairs nodes).length < 2) :
    run_majority_phase e tm g cm stag now nodes =
      { stagnation := stag, nodes := nodes.map (fun ns => (ns.2, none)),
        warned_no_majority := true } := by
  simp [run_majority_phase, h]

/-- C9 witness: a single running parsed container is not enough for a
majority; its state survives the tick untouched and the warning fires. -/
theorem c9_no_majority_skips_updates_witness :
    run_majority_phase true 30 30 30 ⟨some (1, 2), some 0, none⟩ 100
      [(⟨true, true, some (1, 2)⟩, ⟨some 3, none, true, none⟩)] =
      { stagnation := ⟨some (1, 2), some 0, none⟩,
        nodes := [(⟨some 3, none, true, none⟩, none)],
        warned_no_majority := true } :=
  c9_no_majority_skips_updates true 30 30 30 ⟨some (1, 2), some 0, none⟩ 100
    [(⟨true, true, some (1, 2)⟩, ⟨some 3, none, true, none⟩)] (by decide)

/-- C10: a non-running container with an available handle is restarted with
reason "Inactive Node" whenever the majority state is 6 (monitor.py lines
201-205); the branch consults no warmup flag, so the restart is issued even
for a container whose `warmed_up` is false. -/
theorem c10_inactive_restart_ignores_warmup (g cm now mid : Int)
    (status : TickStatus) (s : ContainerState)
    (hrun : status.is_running = false) (hc : status.has_container = true) :
    evaluate_node g cm now (mid, 6) status s =
      (restart_state_update "Inactive Node" now cm s, some "Inactive Node") := by
  simp [evaluate_node, hrun, hc]

/-- C10 witness: a stopped container with `warmed_up = false` is still
restarted as an inactive node when the majority has concluded the session. -/
theorem c10_inactive_restart_ignores_warmup_witness :
    evaluate_node 30 30 100 (10, 6) ⟨false, true, none⟩ ⟨none, none, false, none⟩ =
      (restart_state_update "Inactive Node" 100 30 ⟨none, none, false, none⟩,
       some "Inactive Node") :=
  c10_inactive_restart_ignores_warmup 30 30 100 10 ⟨false, true, none⟩
    ⟨none, none, false, none⟩ rfl rfl
